import Mathlib

/-!
Verification of the multi-model price-prediction dispatch system of the
GenAI-powered Smart Retail repository.

The embedding below translates, from the Python source, the product
classifier (`classify_product_type`), the enhanced feature extractor
(`extract_enhanced_features`), the price-constraint clamp, the serving
entry points (`predict_price` in `server/app.py`, `ModelManager.predict_price`
with the `/predict/price` route in `smart_retail/`), the health endpoint,
the model-loading fallback cascade, and the two input-validation layers
(the pydantic `PriceRequest` field constraints and
`InputValidator.validate_price_request`).

Conventions of the embedding:
* Strings are Lean `String`s; all text handling is ASCII-scoped, matching
  the keyword lists and examples of the source.
* Python floats are modelled as `ℚ`.  `np.expm1`, the one transcendental
  operation, is passed to the serving functions as an explicit parameter
  `expm1 : ℚ → ℚ`; every theorem below holds for all values of that
  parameter, so nothing proved here depends on floating-point behaviour.
* Trained sklearn pipelines are opaque in the source (they consume a
  feature frame and return one log-scale price); they are modelled as
  functions to `ℚ`.
* Python `round(x, 2)` is modelled by `round2` (round to a multiple of
  1/100).  Python resolves exact .xx5 ties to even while `round2` rounds
  them up; no statement below depends on tie behaviour.
-/

/- The Batteries rational primitives are `@[irreducible]`, which blocks
kernel evaluation in `decide`/`rfl` proofs on concrete inputs; restore the
default reducibility for this file. -/
attribute [local semireducible] Rat.mul Rat.add Rat.inv Rat.sub Rat.ofScientific

namespace SmartRetail

/-- ASCII lower-casing of one character, the fragment of Python `str.lower`
exercised by the source's keyword matching. -/
def lowerChar (c : Char) : Char :=
  if 'A' ≤ c ∧ c ≤ 'Z' then Char.ofNat (c.toNat + 32) else c

/-- ASCII `str.lower`. -/
def strLower (s : String) : String := ⟨s.data.map lowerChar⟩

/-- Test whether `needle` occurs at the head of `hay` (list-of-characters view). -/
def listStartsWith : List Char → List Char → Bool
  | [], _ => true
  | _ :: _, [] => false
  | a :: as, b :: bs => a == b && listStartsWith as bs

/-- Test whether `needle` occurs somewhere in `hay`: Python's substring operator `in`. -/
def containsSubList (needle : List Char) : List Char → Bool
  | [] => needle.isEmpty
  | c :: t => listStartsWith needle (c :: t) || containsSubList needle t

/-- Python `needle in hay` on strings. -/
def strContainsSub (hay needle : String) : Bool := containsSubList needle.data hay.data

/-- Python regex `\d`. -/
def isDigitChar (c : Char) : Bool := '0' ≤ c && c ≤ '9'

/-- Python regex `\s` (ASCII range). -/
def isWsChar (c : Char) : Bool :=
  c == ' ' || c == '\t' || c == '\n' || c == '\r' || c == '\x0b' || c == '\x0c'

/-- Python regex `\w` (ASCII range). -/
def isWordChar (c : Char) : Bool :=
  ('a' ≤ c && c ≤ 'z') || ('A' ≤ c && c ≤ 'Z') || ('0' ≤ c && c ≤ '9') || c == '_'

/-- Maximal runs of word characters, accumulator form (`cur` is the
reversed run currently being read). -/
def wordTokensAux : List Char → List Char → List (List Char)
  | [], cur => if cur.isEmpty then [] else [cur.reverse]
  | c :: cs, cur =>
    if isWordChar c then wordTokensAux cs (c :: cur)
    else if cur.isEmpty then wordTokensAux cs []
    else cur.reverse :: wordTokensAux cs []

/-- The maximal `\w+` runs of a character list. -/
def wordTokens (s : List Char) : List (List Char) := wordTokensAux s []

/-- Number of maximal non-whitespace runs: Python `len(s.split())`. -/
def splitCountAux : List Char → Bool → Nat
  | [], _ => 0
  | c :: cs, inWord =>
    if isWsChar c then splitCountAux cs false
    else (if inWord then 0 else 1) + splitCountAux cs true

def splitCount (s : List Char) : Nat := splitCountAux s false

/-- Value of a digit run (most significant first). -/
def digitsVal : List Char → Nat → Nat
  | [], acc => acc
  | c :: cs, acc => digitsVal cs (acc * 10 + (c.toNat - '0'.toNat))

/-- Request-time product descriptor: the fields of `PriceRequest`
(`server/app.py` and `smart_retail/models/data_models.py`).  The handlers
turn the request into a dict via `req.dict()`; a missing key defaults to
the empty string / 0 in the source's `row.get(...)` calls, which the
required fields' defaults here mirror. -/
structure ProductInput where
  product_name : String
  brand : String
  gender : String
  category : String
  fabric : Option String := none
  pattern : Option String := none
  color : Option String := none
  rating_count : Int := 0
  discount_percent : ℚ := 0
deriving Repr, DecidableEq

/-- The four product-type labels returned by `classify_product_type`. -/
inductive ProductType where
  | jewelry
  | watches
  | luxury_apparel
  | apparel
deriving Repr, DecidableEq

/-- String form of a product type, as the Python code returns it. -/
def typeName : ProductType → String
  | .jewelry => "jewelry"
  | .watches => "watches"
  | .luxury_apparel => "luxury_apparel"
  | .apparel => "apparel"

/-- Jewelry keyword list of `classify_product_type`. -/
def jewelry_keywords : List String :=
  ["ring", "chain", "earring", "necklace", "bracelet", "pendant", "bangle",
   "diamond", "gold", "silver", "platinum", "karat", "kt", "gem", "stone"]

/-- Watch keyword list of `classify_product_type`. -/
def watch_keywords : List String :=
  ["watch", "chronograph", "automatic", "quartz", "movement", "dial", "strap",
   "timepiece", "wristwatch", "casio", "titan", "fastrack", "fossil"]

/-- Luxury keyword list of `classify_product_type`. -/
def luxury_keywords : List String :=
  ["designer", "couture", "premium", "exclusive", "limited", "handmade",
   "cashmere", "silk", "leather", "wool", "pashmina", "georgette", "velvet"]

/-- Python `any(keyword in category or keyword in product_name for keyword in kws)`
over already-lowercased strings. -/
def jewelryMatch (category product_name : String) : Bool :=
  jewelry_keywords.any fun kw => strContainsSub category kw || strContainsSub product_name kw

def watchMatch (category product_name : String) : Bool :=
  watch_keywords.any fun kw => strContainsSub category kw || strContainsSub product_name kw

/-- The luxury check reads `product_name` only (`any(keyword in product_name ...)`). -/
def luxuryMatch (product_name : String) : Bool :=
  luxury_keywords.any fun kw => strContainsSub product_name kw

/-- Translation of `classify_product_type` (`server/app.py` lines 200-221,
identical to `ProductClassifier.classify_product_type` in
`smart_retail/models/ml_models.py` lines 43-56). -/
def classify_product_type (row : ProductInput) : ProductType :=
  if jewelryMatch (strLower row.category) (strLower row.product_name) then .jewelry
  else if watchMatch (strLower row.category) (strLower row.product_name) then .watches
  else if luxuryMatch (strLower row.product_name) then .luxury_apparel
  else .apparel

/-- Size tokens of the `has_size` regex
`\b(?:xs|s|m|l|xl|xxl|xxxl|small|medium|large)\b`. -/
def size_tokens : List String :=
  ["xs", "s", "m", "l", "xl", "xxl", "xxxl", "small", "medium", "large"]

/-- Translation of the `has_size` feature.  The regex's alternatives are all
made of word characters and are wrapped in `\b` on both sides, so a match
exists exactly when some maximal `\w+` run of the name equals one of the
alternatives (case-insensitively): inside a run there is no boundary, and a
match starting at a run's head must consume the entire run to reach a
boundary. -/
def has_size (product_name : String) : Bool :=
  (wordTokens product_name.data).any fun t =>
    size_tokens.any fun kw => kw.data == t.map lowerChar

/-- One step of the karat regex `(\d+)\s*kt` (with `re.IGNORECASE`) at a fixed
start position of an already-lowercased name: a nonempty maximal digit run,
then any whitespace, then the literal `kt`.  Backtracking never helps this
pattern (shortening the digit or whitespace run leaves a digit or whitespace
character where `k` is required), so the greedy reading below is exact. -/
def matchKtAt (cs : List Char) : Option Nat :=
  let ds := cs.takeWhile isDigitChar
  if ds.isEmpty then none
  else
    let rest := (cs.dropWhile isDigitChar).dropWhile isWsChar
    if listStartsWith ['k', 't'] rest then some (digitsVal ds 0) else none

/-- Python `re.search`: the match at the leftmost feasible start position. -/
def searchKt : List Char → Option Nat
  | [] => none
  | c :: cs =>
    match matchKtAt (c :: cs) with
    | some v => some v
    | none => searchKt cs

/-- The `karat` feature: `float(karat_match.group(1))` when
`re.search(r'(\d+)\s*kt', product_name, re.IGNORECASE)` matches, else 0.
Case-insensitivity is rendered by lowercasing the name first (digits and
whitespace are unchanged by lowercasing). -/
def karatOf (product_name : String) : ℚ :=
  match searchKt (strLower product_name).data with
  | some v => (v : ℚ)
  | none => 0

/-- Material keyword list of `extract_enhanced_features`. -/
def materials : List String :=
  ["cotton", "polyester", "silk", "wool", "denim", "leather", "cashmere", "pashmina",
   "georgette", "velvet", "linen", "chiffon", "organza", "net", "lace"]

/-- Style keyword list of `extract_enhanced_features`. -/
def styles : List String :=
  ["casual", "formal", "sport", "party", "wedding", "ethnic", "western", "traditional",
   "vintage", "retro", "modern", "classic", "trendy", "elegant", "chic"]

/-- Jewelry-material keyword list of `extract_enhanced_features`. -/
def jewelry_materials : List String :=
  ["gold", "silver", "platinum", "diamond", "gem", "stone", "pearl", "crystal"]

/-- Watch-feature keyword list of `extract_enhanced_features`. -/
def watch_features : List String :=
  ["automatic", "quartz", "chronograph", "digital", "analog", "waterproof", "water resistant"]

/-- Luxury keyword list of `extract_enhanced_features` (distinct from the
classifier's luxury list). -/
def luxury_feature_keywords : List String :=
  ["designer", "couture", "premium", "exclusive", "limited", "handmade",
   "embroidered", "sequined", "beaded", "crystal", "swarovski"]

/-- Python `keyword.lower() in product_name.lower()` flags, keyed by keyword. -/
def keywordFlags (keywords : List String) (product_name : String) : List (String × Bool) :=
  keywords.map fun kw => (kw, strContainsSub (strLower product_name) (strLower kw))

/-- The feature dict built by `extract_enhanced_features`, as a record. -/
structure FeatureRecord where
  has_size : Bool
  name_length : Nat
  word_count : Nat
  has_discount : Bool
  rating_count : Int
  discount_percent : ℚ
  brand_avg_price : ℚ
  material_flags : List (String × Bool)
  style_flags : List (String × Bool)
  jewelry_flags : List (String × Bool)
  karat : ℚ
  watch_flags : List (String × Bool)
  brand_prestige : String
  luxury_flags : List (String × Bool)
  price_range : String
deriving Repr, DecidableEq

/-- Translation of `extract_enhanced_features` (`server/app.py` lines 223-282,
identical to `ModelManager._extract_enhanced_features` in
`smart_retail/models/ml_models.py` lines 254-313).  The brand-prestige table
is a partial map from brand name to average price; `Dict.get(k, 0)` is
rendered by `Option.getD _ 0`. -/
def extract_enhanced_features (row : ProductInput)
    (brand_prestige_scores : String → Option ℚ) : FeatureRecord :=
  let product_name := row.product_name
  let avg_price := (brand_prestige_scores (strLower row.brand)).getD 0
  { has_size := has_size product_name
    name_length := product_name.data.length
    word_count := splitCount product_name.data
    has_discount := decide (row.discount_percent > 0)
    rating_count := row.rating_count
    discount_percent := row.discount_percent
    brand_avg_price := (brand_prestige_scores (strLower row.brand)).getD 0
    material_flags := keywordFlags materials product_name
    style_flags := keywordFlags styles product_name
    jewelry_flags := keywordFlags jewelry_materials product_name
    karat := karatOf product_name
    watch_flags := keywordFlags watch_features product_name
    brand_prestige :=
      if avg_price ≥ 5000 then "ultra_premium"
      else if avg_price ≥ 2000 then "premium"
      else if avg_price ≥ 500 then "mid_range"
      else "budget"
    luxury_flags := keywordFlags luxury_feature_keywords product_name
    price_range := "medium" }

/-- Floor of a rational, computed on the numerator/denominator pair so that
concrete inputs evaluate in the kernel. -/
def qFloor (x : ℚ) : ℤ := Int.fdiv x.num x.den

/-- Round half up to the nearest integer. -/
def qRound (x : ℚ) : ℤ := qFloor (x + 1 / 2)

/-- Python `round(price, 2)`: round to a multiple of 1/100 (ties resolved
upward here, to even in Python; no theorem below depends on ties). -/
def round2 (x : ℚ) : ℚ := (qRound (x * 100) : ℚ) / 100

/-- The `PRICE_CONSTRAINTS` table (`smart_retail/config.py` lines 37-42;
inlined as `constraints` in `server/app.py` line 333).  Both sites read it
with `.get(product_type, (50, 10000))`; the four keys cover every value
`classify_product_type` returns, so the default is never taken. -/
def PRICE_CONSTRAINTS : ProductType → ℚ × ℚ
  | .jewelry => (100, 200000)
  | .watches => (500, 100000)
  | .luxury_apparel => (1000, 50000)
  | .apparel => (50, 10000)

/-- An opaque trained pipeline of the fast tier: given the request dict
merged with the enhanced features, it returns one log-scale price. -/
def FastPipeline : Type := ProductInput → FeatureRecord → ℚ

/-- An opaque single-model pipeline: consumes the raw request dict. -/
def SinglePipeline : Type := ProductInput → ℚ

/-- The `fast_models` artifact: a `models` dict keyed by product type and a
`brand_prestige_scores` dict. -/
structure FastModels where
  models : ProductType → Option FastPipeline
  brand_prestige_scores : String → Option ℚ

/-- The JSON body returned by `predict_price` in `server/app.py`
(`product_type` is present only on the fast-tier path). -/
structure PriceResponse where
  predicted_price : ℚ
  product_type : Option String
  model_type : String
deriving Repr, DecidableEq

/-- The HTTPException kinds raised by `server/app.py`'s price endpoint,
carrying their detail strings. -/
inductive ApiError where
  | serviceUnavailable (detail : String)
  | notFoundForType (detail : String)
  | predictionFailed (detail : String)
deriving Repr, DecidableEq

/-- HTTP status code of each error kind, as raised in the source. -/
def statusCode : ApiError → Nat
  | .serviceUnavailable _ => 503
  | .notFoundForType _ => 404
  | .predictionFailed _ => 500

/-- Python `str(HTTPException)` is `f"{status_code}: {detail}"` (starlette),
which is what the blanket `except Exception as e` interpolates into its 500
detail. -/
def errText : ApiError → String
  | .serviceUnavailable d => "503: " ++ d
  | .notFoundForType d => "404: " ++ d
  | .predictionFailed d => "500: " ++ d

/-- Body of the `try:` block of the fast-tier branch of `predict_price`
(`server/app.py` lines 312-339): classify, look the type up in the registry,
merge raw input and enhanced features, predict, invert the log transform
with `np.expm1`, clamp to the constraint band, round; a missing type raises
the 404 `HTTPException`. -/
def serverFastTry (fm : FastModels) (expm1 : ℚ → ℚ) (req : ProductInput) :
    Except ApiError PriceResponse :=
  let product_type := classify_product_type req
  match fm.models product_type with
  | some model_pipeline =>
    let enhanced_features := extract_enhanced_features req fm.brand_prestige_scores
    let pred_log := model_pipeline req enhanced_features
    let price := expm1 pred_log
    let c := PRICE_CONSTRAINTS product_type
    let price := max c.1 (min price c.2)
    .ok { predicted_price := round2 price
          product_type := some (typeName product_type)
          model_type := "fast_multi_model" }
  | none =>
    .error (.notFoundForType ("No model available for product type: " ++ typeName product_type))

/-- Translation of the `/predict_price` handler (`server/app.py` lines
303-349).  Note the control flow of the source: the 404 raised for a missing
product type sits inside the `try:` block whose `except Exception as e`
clause re-raises every exception — `fastapi.HTTPException` included — as a
500 "Prediction failed: {str(e)}". -/
def predict_price (fast_models : Option FastModels) (original_model : Option SinglePipeline)
    (expm1 : ℚ → ℚ) (req : ProductInput) : Except ApiError PriceResponse :=
  match fast_models, original_model with
  | none, none => .error (.serviceUnavailable "No price models are loaded.")
  | some fm, _ =>
    match serverFastTry fm expm1 req with
    | .ok r => .ok r
    | .error e => .error (.predictionFailed ("Prediction failed: " ++ errText e))
  | none, some om =>
    .ok { predicted_price := round2 (expm1 (om req))
          product_type := none
          model_type := "original_single_model" }

/-- The model-related fields of the `/healthz` response (`server/app.py`
lines 285-301; `ModelManager.get_health_status` is identical). -/
structure HealthStatus where
  fast_models_loaded : Bool
  original_model_loaded : Bool
  model_type_in_use : String
deriving Repr, DecidableEq

def healthz (fast_models : Option FastModels) (original_model : Option SinglePipeline) :
    HealthStatus :=
  { fast_models_loaded := fast_models.isSome
    original_model_loaded := original_model.isSome
    model_type_in_use := if fast_models.isSome then "fast_multi_model" else "original_single_model" }

/-- The price-model loading cascade (`load_models` in `server/app.py` lines
39-149, `ModelManager._load_price_models` lines 73-106).  Each parameter is
the outcome of one external step — an artifact that exists and deserializes,
or the bootstrap training succeeding — as an `Option`.  Every lower tier,
the bootstrap model included, is stored in the `original_model` slot. -/
def load_price_models (fast_artifact : Option FastModels)
    (original_artifact fallback_artifact bootstrap_model : Option SinglePipeline) :
    Option FastModels × Option SinglePipeline :=
  let fast_models := fast_artifact
  let original_model : Option SinglePipeline := none
  let original_model := if fast_models.isNone then original_artifact else original_model
  let original_model :=
    if fast_models.isNone && original_model.isNone then fallback_artifact else original_model
  let original_model :=
    if fast_models.isNone && original_model.isNone then bootstrap_model else original_model
  (fast_models, original_model)

/-- Error raised by `ModelManager.predict_price`: both the no-models case
and the missing-type case raise `ValueError` with a message. -/
inductive MgrError where
  | valueError (msg : String)
deriving Repr, DecidableEq

/-- Translation of `ModelManager._predict_with_fast_models`
(`smart_retail/models/ml_models.py` lines 210-241). -/
def predict_with_fast_models (fm : FastModels) (expm1 : ℚ → ℚ) (product_data : ProductInput) :
    Except MgrError PriceResponse :=
  let product_type := classify_product_type product_data
  match fm.models product_type with
  | none => .error (.valueError ("No model available for product type: " ++ typeName product_type))
  | some model_pipeline =>
    let enhanced_features := extract_enhanced_features product_data fm.brand_prestige_scores
    let pred_log := model_pipeline product_data enhanced_features
    let price := expm1 pred_log
    let c := PRICE_CONSTRAINTS product_type
    let price := max c.1 (min price c.2)
    .ok { predicted_price := round2 price
          product_type := some (typeName product_type)
          model_type := "fast_multi_model" }

/-- Translation of `ModelManager._predict_with_original_model`
(`smart_retail/models/ml_models.py` lines 243-252): no classification, no
constraint clamp. -/
def predict_with_original_model (om : SinglePipeline) (expm1 : ℚ → ℚ)
    (product_data : ProductInput) : PriceResponse :=
  { predicted_price := round2 (expm1 (om product_data))
    product_type := none
    model_type := "original_single_model" }

/-- Translation of `ModelManager.predict_price`
(`smart_retail/models/ml_models.py` lines 200-208). -/
def manager_predict_price (fast_models : Option FastModels)
    (original_model : Option SinglePipeline) (expm1 : ℚ → ℚ) (product_data : ProductInput) :
    Except MgrError PriceResponse :=
  match fast_models, original_model with
  | none, none => .error (.valueError "No price prediction models are loaded")
  | some fm, _ => predict_with_fast_models fm expm1 product_data
  | none, some om => .ok (predict_with_original_model om expm1 product_data)

/-- The `PredictionResponse` fields built by the `/predict/price` route. -/
structure RouteResponse where
  predicted_price : ℚ
  product_type : String
  model_type : String
  confidence : String
deriving Repr, DecidableEq

/-- Translation of the `/predict/price` route handler
(`smart_retail/routes/price_predict.py` lines 159-196, explanation path
disabled as in the default `explain=False`): every `ValueError` from the
manager — the no-models case and the missing-type case alike — is re-raised
as a 503 `HTTPException`. -/
def route_predict_price (fast_models : Option FastModels)
    (original_model : Option SinglePipeline) (expm1 : ℚ → ℚ) (req : ProductInput) :
    Except ApiError RouteResponse :=
  match manager_predict_price fast_models original_model expm1 req with
  | .error (.valueError msg) => .error (.serviceUnavailable msg)
  | .ok p =>
    let product_type := p.product_type.getD "apparel"
    .ok { predicted_price := p.predicted_price
          product_type := product_type
          model_type := p.model_type
          confidence :=
            if product_type == "jewelry" || product_type == "watches" then "High" else "Medium" }

/-- Valid gender values (`data_models.py` validator and
`InputValidator.VALID_GENDERS`). -/
def VALID_GENDERS : List String := ["men", "women", "unisex", "boys", "girls"]

/-- Modelled from the declared pydantic field constraints of `PriceRequest`
(`smart_retail/models/data_models.py` lines 9-77): string lengths, the
gender validator, `rating_count >= 0`, and `0 <= discount_percent <= 100`.
FastAPI runs these checks and rejects the request before the handler body
— and hence the classifier and feature extractor — ever executes. -/
def pydantic_validate (r : ProductInput) : List String :=
  (if 1 ≤ r.product_name.data.length ∧ r.product_name.data.length ≤ 500 then []
   else ["product_name must have between 1 and 500 characters"]) ++
  (if 1 ≤ r.brand.data.length ∧ r.brand.data.length ≤ 100 then []
   else ["brand must have between 1 and 100 characters"]) ++
  (if VALID_GENDERS.contains (strLower r.gender) then []
   else ["Gender must be one of: men, women, unisex, boys, girls"]) ++
  (if 1 ≤ r.category.data.length ∧ r.category.data.length ≤ 100 then []
   else ["category must have between 1 and 100 characters"]) ++
  (match r.fabric with
   | some f => if f.data.length ≤ 100 then [] else ["fabric must have at most 100 characters"]
   | none => []) ++
  (match r.pattern with
   | some p => if p.data.length ≤ 100 then [] else ["pattern must have at most 100 characters"]
   | none => []) ++
  (match r.color with
   | some c => if c.data.length ≤ 50 then [] else ["color must have at most 50 characters"]
   | none => []) ++
  (if 0 ≤ r.rating_count then [] else ["rating_count must be greater than or equal to 0"]) ++
  (if 0 ≤ r.discount_percent ∧ r.discount_percent ≤ 100 then []
   else ["discount_percent must be between 0 and 100"])

/-- Outcome of a request once framework-level validation is taken into
account: a 422 validation rejection, or the handler's result. -/
inductive RequestOutcome where
  | validationError (errors : List String)
  | handled (result : Except ApiError RouteResponse)

/-- The `/predict/price` request path including pydantic validation:
validation errors short-circuit before the handler — and therefore before
`classify_product_type` and `extract_enhanced_features` — runs. -/
def route_with_validation (fast_models : Option FastModels)
    (original_model : Option SinglePipeline) (expm1 : ℚ → ℚ) (req : ProductInput) :
    RequestOutcome :=
  match pydantic_validate req with
  | [] => .handled (route_predict_price fast_models original_model expm1 req)
  | errs => .validationError errs

/-- Valid categories of `InputValidator` (`smart_retail/utils/validators.py`). -/
def VALID_CATEGORIES : List String :=
  ["shirt", "jeans", "dress", "shoes", "jacket", "top", "bottom",
   "accessories", "jewelry", "watch", "bag", "hat"]

/-- Translation of `InputValidator.validate_price_request`
(`smart_retail/utils/validators.py` lines 27-79): returns the list of all
violations, in source order.  Python's falsiness test `not data.get(field)`
on the string fields is the emptiness test here; the numeric fields are
typed, so the `int()`/`float()` conversion failures cannot arise. -/
def validate_price_request (d : ProductInput) : List String :=
  (if d.product_name == "" then ["Missing required field: product_name"] else []) ++
  (if d.brand == "" then ["Missing required field: brand"] else []) ++
  (if d.gender == "" then ["Missing required field: gender"] else []) ++
  (if d.category == "" then ["Missing required field: category"] else []) ++
  (if d.gender != "" && !(VALID_GENDERS.contains d.gender) then
     ["Invalid gender. Must be one of: men, women, unisex, boys, girls"] else []) ++
  (if d.category != "" && !((VALID_CATEGORIES.map strLower).contains (strLower d.category)) then
     ["Invalid category. Must be one of: shirt, jeans, dress, shoes, jacket, top, bottom, accessories, jewelry, watch, bag, hat"]
   else []) ++
  (if d.rating_count < 0 then ["rating_count must be non-negative"] else []) ++
  (if ¬ (0 ≤ d.discount_percent ∧ d.discount_percent ≤ 100) then
     ["discount_percent must be between 0 and 100"] else []) ++
  (if d.product_name != "" && d.product_name.data.length > 200 then
     ["product_name must be 200 characters or less"] else []) ++
  (if d.brand != "" && d.brand.data.length > 50 then
     ["brand must be 50 characters or less"] else [])

/-! Concrete inputs used by witnesses and counterexamples. -/

/-- Concrete scenario of the spec: an 18kt gold ring. -/
def goldRingReq : ProductInput :=
  { product_name := "Men 18kt Gold Ring", brand := "tanishq", gender := "men",
    category := "ring", color := some "gold", rating_count := 150, discount_percent := 10 }

/-- Same descriptor with a different brand and discount (classifier-irrelevant fields). -/
def goldRingVariant : ProductInput :=
  { goldRingReq with brand := "unknown-brand", discount_percent := 0 }

/-- Concrete scenario of the spec: a cotton t-shirt. -/
def cottonShirtReq : ProductInput :=
  { product_name := "Women Cotton Casual T-Shirt", brand := "roadster", gender := "women",
    category := "tshirt", fabric := some "cotton", pattern := some "solid",
    color := some "blue", rating_count := 500, discount_percent := 30 }

/-- Descriptor whose category says necklace while the name says silk. -/
def silkNecklaceReq : ProductInput :=
  { product_name := "Pure Silk Wrap", brand := "tanishq", gender := "women",
    category := "necklace" }

/-- Descriptor matching only a luxury keyword, and only in the name. -/
def silkTopReq : ProductInput :=
  { product_name := "Designer Silk Top", brand := "zara", gender := "women",
    category := "top" }

/-- Descriptor matching watch keywords but no jewelry keyword. -/
def watchReq : ProductInput :=
  { product_name := "Quartz Analog Watch", brand := "casio", gender := "men",
    category := "watch" }

/-- Descriptor whose name contains "gold" only inside "Marigold". -/
def marigoldReq : ProductInput :=
  { product_name := "Marigold Dress", brand := "roadster", gender := "women",
    category := "dress" }

/-- Descriptor whose name contains "stone" only inside "Limestone". -/
def limestoneReq : ProductInput :=
  { product_name := "Limestone Print Top", brand := "roadster", gender := "women",
    category := "top" }

/-- A fast-tier registry with a model for every product type (each pipeline
returns log-price 0, so the raw price is expm1 0 = 0). -/
def allTypesModels : FastModels :=
  { models := fun _ => some (fun _ _ => 0)
    brand_prestige_scores := fun _ => none }

/-- A fast-tier registry with a model registered only for apparel. -/
def apparelOnlyModels : FastModels :=
  { models := fun pt => match pt with | .apparel => some (fun _ _ => 0) | _ => none
    brand_prestige_scores := fun _ => none }

/-- The cotton-shirt request with the discount replaced. -/
def discountReq (d : ℚ) : ProductInput := { cottonShirtReq with discount_percent := d }

/-- A request that also satisfies `InputValidator`'s category whitelist. -/
def validatorReq (d : ℚ) : ProductInput :=
  { cottonShirtReq with category := "shirt", discount_percent := d }

/-! Supporting lemmas. -/

lemma qFloor_eq (x : ℚ) : qFloor x = ⌊x⌋ := by
  rw [Rat.floor_def, qFloor]
  exact Int.fdiv_eq_ediv _ (by positivity)

lemma le_round2 {m : ℤ} {x : ℚ} (h : (m : ℚ) ≤ x) : (m : ℚ) ≤ round2 x := by
  rw [round2, qRound, qFloor_eq]
  rw [le_div_iff₀ (by norm_num : (0:ℚ) < 100)]
  have hfl : (m * 100 : ℤ) ≤ ⌊x * 100 + 1 / 2⌋ := by
    apply Int.le_floor.mpr
    push_cast
    nlinarith
  calc ((m : ℚ) * 100) = ((m * 100 : ℤ) : ℚ) := by push_cast; ring
    _ ≤ (⌊x * 100 + 1 / 2⌋ : ℚ) := by exact_mod_cast hfl

lemma round2_le {M : ℤ} {x : ℚ} (h : x ≤ (M : ℚ)) : round2 x ≤ (M : ℚ) := by
  rw [round2, qRound, qFloor_eq]
  rw [div_le_iff₀ (by norm_num : (0:ℚ) < 100)]
  have hlt : ⌊x * 100 + 1 / 2⌋ < M * 100 + 1 := by
    apply Int.floor_lt.mpr
    push_cast
    nlinarith
  have hle : ⌊x * 100 + 1 / 2⌋ ≤ M * 100 := by omega
  calc (⌊x * 100 + 1 / 2⌋ : ℚ) ≤ ((M * 100 : ℤ) : ℚ) := by exact_mod_cast hle
    _ = (M : ℚ) * 100 := by push_cast; ring

/-- Rounding a value clamped between two integer-valued bounds stays inside
the bounds. -/
lemma round2_clamp_mem (lo hi : ℤ) (hlh : (lo : ℚ) ≤ (hi : ℚ)) (p : ℚ) :
    (lo : ℚ) ≤ round2 (max (lo : ℚ) (min p (hi : ℚ))) ∧
      round2 (max (lo : ℚ) (min p (hi : ℚ))) ≤ (hi : ℚ) :=
  ⟨le_round2 (le_max_left _ _), round2_le (max_le hlh (min_le_right _ _))⟩

/-- Clamp-then-round stays inside the band, for each product type. -/
lemma clamp_bounds (pt : ProductType) (p : ℚ) :
    (PRICE_CONSTRAINTS pt).1 ≤
        round2 (max (PRICE_CONSTRAINTS pt).1 (min p (PRICE_CONSTRAINTS pt).2)) ∧
      round2 (max (PRICE_CONSTRAINTS pt).1 (min p (PRICE_CONSTRAINTS pt).2)) ≤
        (PRICE_CONSTRAINTS pt).2 := by
  cases pt
  · exact_mod_cast round2_clamp_mem 100 200000 (by norm_num) p
  · exact_mod_cast round2_clamp_mem 500 100000 (by norm_num) p
  · exact_mod_cast round2_clamp_mem 1000 50000 (by norm_num) p
  · exact_mod_cast round2_clamp_mem 50 10000 (by norm_num) p

/-- Characterization of the fast-tier try block on the success path. -/
lemma serverFastTry_ok_iff (fm : FastModels) (expm1 : ℚ → ℚ) (req : ProductInput)
    (r : PriceResponse) :
    serverFastTry fm expm1 req = .ok r ↔
      ∃ pipe, fm.models (classify_product_type req) = some pipe ∧
        r = ⟨round2 (max (PRICE_CONSTRAINTS (classify_product_type req)).1
                (min (expm1 (pipe req (extract_enhanced_features req fm.brand_prestige_scores)))
                  (PRICE_CONSTRAINTS (classify_product_type req)).2)),
             some (typeName (classify_product_type req)), "fast_multi_model"⟩ := by
  unfold serverFastTry
  cases h : fm.models (classify_product_type req) <;> simp [h, eq_comm]

/-- A fast-tier success of `predict_price` reports the classified type and a
price inside its constraint band. -/
lemma fast_ok_bounds (fm : FastModels) (orig : Option SinglePipeline) (expm1 : ℚ → ℚ)
    (req : ProductInput) (r : PriceResponse)
    (h : predict_price (some fm) orig expm1 req = .ok r) :
    r.product_type = some (typeName (classify_product_type req)) ∧
      (PRICE_CONSTRAINTS (classify_product_type req)).1 ≤ r.predicted_price ∧
      r.predicted_price ≤ (PRICE_CONSTRAINTS (classify_product_type req)).2 := by
  have hf : predict_price (some fm) orig expm1 req =
      match serverFastTry fm expm1 req with
      | .ok r => .ok r
      | .error e => .error (.predictionFailed ("Prediction failed: " ++ errText e)) := rfl
  rw [hf] at h
  cases hst : serverFastTry fm expm1 req with
  | error e => rw [hst] at h; exact absurd h (by simp)
  | ok s =>
    rw [hst] at h
    have hsr : s = r := by simpa using h
    obtain ⟨pipe, hpipe, hshape⟩ := (serverFastTry_ok_iff fm expm1 req s).mp hst
    rw [← hsr, hshape]
    exact ⟨rfl, (clamp_bounds _ _).1, (clamp_bounds _ _).2⟩

/-- Leftmost-match characterization of `searchKt`, success case. -/
lemma searchKt_of_matchAt (cs : List Char) (i v : Nat)
    (h : matchKtAt (cs.drop i) = some v)
    (hmin : ∀ j, j < i → matchKtAt (cs.drop j) = none) :
    searchKt cs = some v := by
  induction cs generalizing i with
  | nil =>
    rw [List.drop_nil] at h
    simp [matchKtAt] at h
  | cons c cs ih =>
    cases i with
    | zero =>
      rw [List.drop] at h
      rw [searchKt, h]
    | succ i =>
      have h0 := hmin 0 (Nat.succ_pos i)
      rw [List.drop] at h0
      rw [searchKt, h0]
      exact ih i (by simpa using h) (fun j hj => by
        have := hmin (j + 1) (by omega)
        simpa using this)

/-- Leftmost-match characterization of `searchKt`, failure case. -/
lemma searchKt_none (cs : List Char)
    (h : ∀ i, matchKtAt (cs.drop i) = none) : searchKt cs = none := by
  induction cs with
  | nil => rfl
  | cons c cs ih =>
    have h0 := h 0
    rw [List.drop] at h0
    rw [searchKt, h0]
    exact ih (fun i => by simpa using h (i + 1))

/-! Claim theorems. -/

/-- C1: when the multi-model (fast) tier is active, every price returned by
`predict_price` lies within the `PRICE_CONSTRAINTS` band of the classified
product type, the bands being jewelry [100, 200000], watches [500, 100000],
luxury_apparel [1000, 50000], apparel [50, 10000]; the response also carries
that classified type. -/
theorem C1_fast_tier_price_within_constraints
    (fm : FastModels) (orig : Option SinglePipeline) (expm1 : ℚ → ℚ)
    (req : ProductInput) (r : PriceResponse)
    (h : predict_price (some fm) orig expm1 req = .ok r) :
    PRICE_CONSTRAINTS .jewelry = (100, 200000) ∧
    PRICE_CONSTRAINTS .watches = (500, 100000) ∧
    PRICE_CONSTRAINTS .luxury_apparel = (1000, 50000) ∧
    PRICE_CONSTRAINTS .apparel = (50, 10000) ∧
    (r.product_type = some (typeName (classify_product_type req)) ∧
      (PRICE_CONSTRAINTS (classify_product_type req)).1 ≤ r.predicted_price ∧
      r.predicted_price ≤ (PRICE_CONSTRAINTS (classify_product_type req)).2) :=
  ⟨rfl, rfl, rfl, rfl, fast_ok_bounds fm orig expm1 req r h⟩

/-- Witness for C1 at the spec's gold-ring descriptor against a registry with
all four types: the raw prediction 0 is clamped up to the jewelry minimum 100. -/
theorem C1_witness :
    predict_price (some allTypesModels) none (fun q => q) goldRingReq =
        Except.ok ⟨100, some "jewelry", "fast_multi_model"⟩ ∧
    (PRICE_CONSTRAINTS .jewelry = (100, 200000) ∧
      PRICE_CONSTRAINTS .watches = (500, 100000) ∧
      PRICE_CONSTRAINTS .luxury_apparel = (1000, 50000) ∧
      PRICE_CONSTRAINTS .apparel = (50, 10000) ∧
      ((⟨100, some "jewelry", "fast_multi_model"⟩ : PriceResponse).product_type =
          some (typeName (classify_product_type goldRingReq)) ∧
        (PRICE_CONSTRAINTS (classify_product_type goldRingReq)).1 ≤
          (⟨100, some "jewelry", "fast_multi_model"⟩ : PriceResponse).predicted_price ∧
        (⟨100, some "jewelry", "fast_multi_model"⟩ : PriceResponse).predicted_price ≤
          (PRICE_CONSTRAINTS (classify_product_type goldRingReq)).2)) :=
  ⟨by rfl, C1_fast_tier_price_within_constraints allTypesModels none (fun q => q) goldRingReq
    ⟨100, some "jewelry", "fast_multi_model"⟩ (by rfl)⟩

/-- Counterexample to C2 as stated: on the single-model tier the clamp is
not applied.  The opaque pipeline returns log-price 0; the mock `expm1`
agrees with the true `np.expm1` at 0 (both return 0), so the served price is
0, below the [50, 10000] apparel band — and below every band's minimum. -/
theorem C2_counterexample :
    classify_product_type cottonShirtReq = ProductType.apparel ∧
    predict_price none (some (fun _ => 0)) (fun q => q) cottonShirtReq =
      Except.ok ⟨0, none, "original_single_model"⟩ ∧
    ¬ ((PRICE_CONSTRAINTS ProductType.apparel).1 ≤ (0 : ℚ) ∧
        (0 : ℚ) ≤ (PRICE_CONSTRAINTS ProductType.apparel).2) :=
  ⟨by decide, by rfl, by decide⟩

/-- C2 (amended): the PriceConstraintPolicy clamp is applied only when the
multi-model tier serves the request; when the single-model or bootstrap tier
is active, both serving variants return round(expm1(prediction), 2) with no
clamp, so the price may lie outside every per-type band. -/
theorem C2_clamp_only_on_fast_tier :
    (∀ (om : SinglePipeline) (expm1 : ℚ → ℚ) (req : ProductInput),
        predict_price none (some om) expm1 req =
          .ok ⟨round2 (expm1 (om req)), none, "original_single_model"⟩) ∧
    (∀ (om : SinglePipeline) (expm1 : ℚ → ℚ) (pd : ProductInput),
        predict_with_original_model om expm1 pd =
          ⟨round2 (expm1 (om pd)), none, "original_single_model"⟩) ∧
    (∀ (fm : FastModels) (orig : Option SinglePipeline) (expm1 : ℚ → ℚ)
        (req : ProductInput) (r : PriceResponse),
        predict_price (some fm) orig expm1 req = .ok r →
        (PRICE_CONSTRAINTS (classify_product_type req)).1 ≤ r.predicted_price ∧
          r.predicted_price ≤ (PRICE_CONSTRAINTS (classify_product_type req)).2) :=
  ⟨fun _ _ _ => rfl, fun _ _ _ => rfl,
   fun fm orig expm1 req r h => (fast_ok_bounds fm orig expm1 req r h).2⟩

/-- Witness for C2 (amended), fast-tier clause at the cotton-shirt
descriptor: the raw prediction 0 is clamped up to the apparel minimum 50. -/
theorem C2_witness :
    predict_price (some apparelOnlyModels) none (fun q => q) cottonShirtReq =
        Except.ok ⟨50, some "apparel", "fast_multi_model"⟩ ∧
    ((PRICE_CONSTRAINTS (classify_product_type cottonShirtReq)).1 ≤
        (⟨50, some "apparel", "fast_multi_model"⟩ : PriceResponse).predicted_price ∧
      (⟨50, some "apparel", "fast_multi_model"⟩ : PriceResponse).predicted_price ≤
        (PRICE_CONSTRAINTS (classify_product_type cottonShirtReq)).2) :=
  ⟨by rfl, C2_clamp_only_on_fast_tier.2.2 apparelOnlyModels none (fun q => q) cottonShirtReq
    ⟨50, some "apparel", "fast_multi_model"⟩ (by rfl)⟩

/-- C3: classification is total and deterministic: every descriptor — the
category and name may be empty — maps to one of the four labels, and the
result depends only on the category and product-name fields. -/
theorem C3_classification_total_deterministic :
    ∀ d : ProductInput,
      (classify_product_type d = .jewelry ∨ classify_product_type d = .watches ∨
        classify_product_type d = .luxury_apparel ∨ classify_product_type d = .apparel) ∧
      ∀ d' : ProductInput, d.category = d'.category → d.product_name = d'.product_name →
        classify_product_type d = classify_product_type d' := by
  intro d
  constructor
  · unfold classify_product_type
    split
    · exact Or.inl rfl
    · split
      · exact Or.inr (Or.inl rfl)
      · split
        · exact Or.inr (Or.inr (Or.inl rfl))
        · exact Or.inr (Or.inr (Or.inr rfl))
  · intro d' hc hn
    unfold classify_product_type
    rw [hc, hn]

/-- Witness for C3: the gold-ring descriptor classifies to one of the four
labels, and changing the brand and discount does not change the label. -/
theorem C3_witness :
    (classify_product_type goldRingReq = .jewelry ∨
      classify_product_type goldRingReq = .watches ∨
      classify_product_type goldRingReq = .luxury_apparel ∨
      classify_product_type goldRingReq = .apparel) ∧
    classify_product_type goldRingReq = classify_product_type goldRingVariant :=
  ⟨(C3_classification_total_deterministic goldRingReq).1,
   (C3_classification_total_deterministic goldRingReq).2 goldRingVariant (by rfl) (by rfl)⟩

/-- C4: the keyword sets are checked in priority order jewelry, watches,
luxury, first match winning, with the luxury set tested against the product
name only; in particular any descriptor whose category contains "necklace"
and whose name contains "silk" classifies as jewelry. -/
theorem C4_priority_order :
    ∀ d : ProductInput,
      (∀ kw, kw ∈ jewelry_keywords →
          (strContainsSub (strLower d.category) kw = true ∨
            strContainsSub (strLower d.product_name) kw = true) →
          classify_product_type d = .jewelry) ∧
      (strContainsSub (strLower d.category) "necklace" = true →
          strContainsSub (strLower d.product_name) "silk" = true →
          classify_product_type d = .jewelry) ∧
      (∀ kw, kw ∈ watch_keywords →
          jewelryMatch (strLower d.category) (strLower d.product_name) = false →
          (strContainsSub (strLower d.category) kw = true ∨
            strContainsSub (strLower d.product_name) kw = true) →
          classify_product_type d = .watches) ∧
      (jewelryMatch (strLower d.category) (strLower d.product_name) = false →
          watchMatch (strLower d.category) (strLower d.product_name) = false →
          luxuryMatch (strLower d.product_name) = true →
          classify_product_type d = .luxury_apparel) ∧
      (jewelryMatch (strLower d.category) (strLower d.product_name) = false →
          watchMatch (strLower d.category) (strLower d.product_name) = false →
          luxuryMatch (strLower d.product_name) = false →
          classify_product_type d = .apparel) := by
  intro d
  have hjew : ∀ kw, kw ∈ jewelry_keywords →
      (strContainsSub (strLower d.category) kw = true ∨
        strContainsSub (strLower d.product_name) kw = true) →
      classify_product_type d = .jewelry := by
    intro kw hmem hor
    have hm : jewelryMatch (strLower d.category) (strLower d.product_name) = true := by
      unfold jewelryMatch
      refine List.any_eq_true.mpr ⟨kw, hmem, ?_⟩
      rcases hor with h | h <;> simp [h]
    simp [classify_product_type, hm]
  refine ⟨hjew, ?_, ?_, ?_, ?_⟩
  · intro hc _hn
    exact hjew "necklace" (by decide) (Or.inl hc)
  · intro kw hmem h1 hor
    have hm : watchMatch (strLower d.category) (strLower d.product_name) = true := by
      unfold watchMatch
      refine List.any_eq_true.mpr ⟨kw, hmem, ?_⟩
      rcases hor with h | h <;> simp [h]
    simp [classify_product_type, h1, hm]
  · intro h1 h2 h3
    simp [classify_product_type, h1, h2, h3]
  · intro h1 h2 h3
    simp [classify_product_type, h1, h2, h3]

/-- Witness for C4: a necklace-category silk-name descriptor is jewelry, a
watch-keyword descriptor without jewelry keywords is watches, and a
descriptor matching only the luxury list (in the name) is luxury apparel. -/
theorem C4_witness :
    classify_product_type silkNecklaceReq = .jewelry ∧
    classify_product_type watchReq = .watches ∧
    classify_product_type silkTopReq = .luxury_apparel :=
  ⟨(C4_priority_order silkNecklaceReq).2.1 (by decide) (by decide),
   (C4_priority_order watchReq).2.2.1 "watch" (by decide) (by decide) (Or.inl (by decide)),
   (C4_priority_order silkTopReq).2.2.2.1 (by decide) (by decide) (by decide)⟩

/-- C5 (code behaviour at the failing input): with the fast tier active and
no model registered for the classified type, `server/app.py` does not return
the distinct 404 not-found kind: its blanket `except Exception` re-raises
the 404 as a 500 "Prediction failed", while the modular route maps the
`ValueError` to a 503 — the same status as service-unavailable.  The
handler still returns (no crash), and a request whose type is registered is
served normally by the same registry. -/
theorem C5_missing_type_not_distinct :
    classify_product_type goldRingReq = .jewelry ∧
    apparelOnlyModels.models (classify_product_type goldRingReq) = none ∧
    predict_price (some apparelOnlyModels) none (fun q => q) goldRingReq =
      Except.error (.predictionFailed
        "Prediction failed: 404: No model available for product type: jewelry") ∧
    statusCode (.predictionFailed
        "Prediction failed: 404: No model available for product type: jewelry") = 500 ∧
    route_predict_price (some apparelOnlyModels) none (fun q => q) goldRingReq =
      Except.error (.serviceUnavailable "No model available for product type: jewelry") ∧
    statusCode (.serviceUnavailable "No model available for product type: jewelry") = 503 ∧
    predict_price (some apparelOnlyModels) none (fun q => q) cottonShirtReq =
      Except.ok ⟨50, some "apparel", "fast_multi_model"⟩ :=
  ⟨by decide, by rfl, by rfl, by rfl, by rfl, by rfl, by rfl⟩

/-- C6: both validation layers accept discount_percent 0 and 100 and reject
100.01 with a validation error, and a pydantic rejection short-circuits the
request before the handler — hence before the classifier and feature
extractor — runs, whatever the model registry holds. -/
theorem C6_discount_bounds_validation :
    pydantic_validate (discountReq 0) = [] ∧
    pydantic_validate (discountReq 100) = [] ∧
    pydantic_validate (discountReq 100.01) = ["discount_percent must be between 0 and 100"] ∧
    validate_price_request (validatorReq 0) = [] ∧
    validate_price_request (validatorReq 100) = [] ∧
    validate_price_request (validatorReq 100.01) =
      ["discount_percent must be between 0 and 100"] ∧
    (∀ (fast : Option FastModels) (orig : Option SinglePipeline) (expm1 : ℚ → ℚ)
        (req : ProductInput), pydantic_validate req ≠ [] →
        route_with_validation fast orig expm1 req = .validationError (pydantic_validate req)) := by
  refine ⟨by decide, by decide, by decide, by decide, by decide, by decide, ?_⟩
  intro fast orig expm1 req hne
  unfold route_with_validation
  rcases hv : pydantic_validate req with - | ⟨e, es⟩
  · exact absurd hv hne
  · rfl

/-- Witness for C6: the 100.01 request is rejected before any prediction
logic runs, even against an empty registry. -/
theorem C6_witness :
    pydantic_validate (discountReq 100.01) ≠ [] ∧
    route_with_validation none none (fun q => q) (discountReq 100.01) =
      .validationError (pydantic_validate (discountReq 100.01)) :=
  ⟨by decide,
   C6_discount_bounds_validation.2.2.2.2.2.2 none none (fun q => q) (discountReq 100.01)
     (by decide)⟩

/-- C7: the karat feature is the value of the leftmost occurrence of an
integer followed by optional whitespace and the token "kt" in the product
name, and 0 when no position matches; concretely, "Men 18kt Gold Ring"
yields karat 18 and classifies as jewelry. -/
theorem C7_karat_first_match :
    (∀ (name : String) (i v : Nat),
        matchKtAt ((strLower name).data.drop i) = some v →
        (∀ j, j < i → matchKtAt ((strLower name).data.drop j) = none) →
        karatOf name = (v : ℚ)) ∧
    (∀ name : String, (∀ i, matchKtAt ((strLower name).data.drop i) = none) →
        karatOf name = 0) ∧
    karatOf "Men 18kt Gold Ring" = 18 ∧
    (extract_enhanced_features goldRingReq (fun _ => none)).karat = 18 ∧
    classify_product_type goldRingReq = .jewelry := by
  refine ⟨?_, ?_, by decide, by decide, by decide⟩
  · intro name i v h hmin
    unfold karatOf
    rw [searchKt_of_matchAt _ i v h hmin]
  · intro name h
    unfold karatOf
    rw [searchKt_none _ h]

/-- Witness for C7 on the name "18kt": the match at position 0 gives 18. -/
theorem C7_witness : karatOf "18kt" = ((18 : ℕ) : ℚ) :=
  C7_karat_first_match.1 "18kt" 0 18 (by decide) (fun j hj => absurd hj (Nat.not_lt_zero j))

/-- Tier label of the brand-prestige if/elif chain, characterized by the
threshold intervals. -/
lemma prestige_iffs (a : ℚ) :
    ((if a ≥ 5000 then "ultra_premium" else if a ≥ 2000 then "premium"
      else if a ≥ 500 then "mid_range" else "budget") = "budget" ↔ a < 500) ∧
    ((if a ≥ 5000 then "ultra_premium" else if a ≥ 2000 then "premium"
      else if a ≥ 500 then "mid_range" else "budget") = "mid_range" ↔ 500 ≤ a ∧ a < 2000) ∧
    ((if a ≥ 5000 then "ultra_premium" else if a ≥ 2000 then "premium"
      else if a ≥ 500 then "mid_range" else "budget") = "premium" ↔ 2000 ≤ a ∧ a < 5000) ∧
    ((if a ≥ 5000 then "ultra_premium" else if a ≥ 2000 then "premium"
      else if a ≥ 500 then "mid_range" else "budget") = "ultra_premium" ↔ 5000 ≤ a) := by
  split_ifs with h1 h2 h3
  · exact ⟨iff_of_false (by decide) (by intro h; linarith),
      iff_of_false (by decide) (by rintro ⟨-, h⟩; linarith),
      iff_of_false (by decide) (by rintro ⟨-, h⟩; linarith),
      iff_of_true rfl h1⟩
  · have h1' : a < 5000 := not_le.mp h1
    exact ⟨iff_of_false (by decide) (by intro h; linarith),
      iff_of_false (by decide) (by rintro ⟨-, h⟩; linarith),
      iff_of_true rfl ⟨h2, h1'⟩,
      iff_of_false (by decide) (by intro h; linarith)⟩
  · have h2' : a < 2000 := not_le.mp h2
    exact ⟨iff_of_false (by decide) (by intro h; linarith),
      iff_of_true rfl ⟨h3, h2'⟩,
      iff_of_false (by decide) (by rintro ⟨h, -⟩; linarith),
      iff_of_false (by decide) (by intro h; linarith)⟩
  · have h3' : a < 500 := not_le.mp h3
    exact ⟨iff_of_true rfl h3',
      iff_of_false (by decide) (by rintro ⟨h, -⟩; linarith),
      iff_of_false (by decide) (by rintro ⟨h, -⟩; linarith),
      iff_of_false (by decide) (by intro h; linarith)⟩

/-- C8: the brand_avg_price feature is the lookup of the lowercased brand
with default 0, and the brand_prestige tier is budget / mid_range /
premium / ultra_premium exactly on the intervals below 500, [500, 2000),
[2000, 5000), and at or above 5000. -/
theorem C8_brand_prestige_thresholds :
    ∀ (scores : String → Option ℚ) (d : ProductInput),
      (extract_enhanced_features d scores).brand_avg_price =
        (scores (strLower d.brand)).getD 0 ∧
      ((extract_enhanced_features d scores).brand_prestige = "budget" ↔
        (extract_enhanced_features d scores).brand_avg_price < 500) ∧
      ((extract_enhanced_features d scores).brand_prestige = "mid_range" ↔
        500 ≤ (extract_enhanced_features d scores).brand_avg_price ∧
          (extract_enhanced_features d scores).brand_avg_price < 2000) ∧
      ((extract_enhanced_features d scores).brand_prestige = "premium" ↔
        2000 ≤ (extract_enhanced_features d scores).brand_avg_price ∧
          (extract_enhanced_features d scores).brand_avg_price < 5000) ∧
      ((extract_enhanced_features d scores).brand_prestige = "ultra_premium" ↔
        5000 ≤ (extract_enhanced_features d scores).brand_avg_price) :=
  fun scores d =>
    ⟨rfl, (prestige_iffs ((scores (strLower d.brand)).getD 0)).1,
      (prestige_iffs ((scores (strLower d.brand)).getD 0)).2.1,
      (prestige_iffs ((scores (strLower d.brand)).getD 0)).2.2.1,
      (prestige_iffs ((scores (strLower d.brand)).getD 0)).2.2.2⟩

/-- C9: classification keyword matching is plain substring containment — a
name containing "gold" inside "Marigold" or "stone" inside "Limestone" is
jewelry — while the has_size feature uses word-boundary matching, so the
one-letter size tokens inside those same names do not fire. -/
theorem C9_substring_vs_word_boundary :
    (∀ d : ProductInput, strContainsSub (strLower d.product_name) "gold" = true →
        classify_product_type d = .jewelry) ∧
    (∀ d : ProductInput, strContainsSub (strLower d.product_name) "stone" = true →
        classify_product_type d = .jewelry) ∧
    classify_product_type marigoldReq = .jewelry ∧
    classify_product_type limestoneReq = .jewelry ∧
    strContainsSub (strLower "Marigold Dress") "gold" = true ∧
    strContainsSub (strLower "Marigold Dress") "m" = true ∧
    strContainsSub (strLower "Marigold Dress") "s" = true ∧
    has_size "Marigold Dress" = false ∧
    has_size "Small Marigold Dress" = true := by
  have gen : ∀ kw, kw ∈ jewelry_keywords → ∀ d : ProductInput,
      strContainsSub (strLower d.product_name) kw = true →
      classify_product_type d = .jewelry := by
    intro kw hmem d h
    have hm : jewelryMatch (strLower d.category) (strLower d.product_name) = true := by
      unfold jewelryMatch
      exact List.any_eq_true.mpr ⟨kw, hmem, by simp [h]⟩
    simp [classify_product_type, hm]
  exact ⟨gen "gold" (by decide), gen "stone" (by decide), by decide, by decide,
    by decide, by decide, by decide, by decide, by decide⟩

/-- Witness for C9 at the marigold descriptor. -/
theorem C9_witness : classify_product_type marigoldReq = ProductType.jewelry :=
  C9_substring_vs_word_boundary.1 marigoldReq (by decide)

/-- C10: no response ever carries model_type "fallback_model": every
successful prediction reports "fast_multi_model" or
"original_single_model"; the loading cascade stores the bootstrap model in
the single-model slot, whose responses say "original_single_model"; and the
health endpoint reports "original_single_model" whenever the fast tier is
absent, including when nothing is loaded at all. -/
theorem C10_no_fallback_model_label :
    (∀ (fast : Option FastModels) (orig : Option SinglePipeline) (expm1 : ℚ → ℚ)
        (req : ProductInput) (r : PriceResponse),
        predict_price fast orig expm1 req = .ok r →
        (r.model_type = "fast_multi_model" ∨ r.model_type = "original_single_model") ∧
          r.model_type ≠ "fallback_model") ∧
    (∀ (fast : Option FastModels) (orig : Option SinglePipeline), fast = none →
        (healthz fast orig).model_type_in_use = "original_single_model") ∧
    (healthz none none).model_type_in_use = "original_single_model" ∧
    (∀ boot : SinglePipeline, load_price_models none none none (some boot) = (none, some boot)) ∧
    (∀ (boot : SinglePipeline) (expm1 : ℚ → ℚ) (req : ProductInput),
        predict_price (load_price_models none none none (some boot)).1
            (load_price_models none none none (some boot)).2 expm1 req =
          .ok ⟨round2 (expm1 (boot req)), none, "original_single_model"⟩) := by
  refine ⟨?_, ?_, rfl, fun boot => rfl, fun boot expm1 req => rfl⟩
  · intro fast orig expm1 req r h
    cases fast with
    | none =>
      cases orig with
      | none => simp [predict_price] at h
      | some om =>
        simp only [predict_price, Except.ok.injEq] at h
        rw [← h]
        exact ⟨Or.inr rfl, show ("original_single_model" : String) ≠ "fallback_model" by decide⟩
    | some fm =>
      have hf : predict_price (some fm) orig expm1 req =
          match serverFastTry fm expm1 req with
          | .ok r => .ok r
          | .error e => .error (.predictionFailed ("Prediction failed: " ++ errText e)) := rfl
      rw [hf] at h
      cases hst : serverFastTry fm expm1 req with
      | error e => rw [hst] at h; exact absurd h (by simp)
      | ok s =>
        rw [hst] at h
        have hsr : s = r := by simpa using h
        obtain ⟨pipe, hpipe, hshape⟩ := (serverFastTry_ok_iff fm expm1 req s).mp hst
        rw [← hsr, hshape]
        exact ⟨Or.inl rfl, show ("fast_multi_model" : String) ≠ "fallback_model" by decide⟩
  · intro fast orig hfast
    subst hfast
    rfl

/-- Witness for C10: the single-model path at the cotton-shirt request and
the empty health state. -/
theorem C10_witness :
    predict_price none (some (fun _ => (1 : ℚ))) (fun q => q) cottonShirtReq =
        Except.ok ⟨1, none, "original_single_model"⟩ ∧
    (((⟨1, none, "original_single_model"⟩ : PriceResponse).model_type = "fast_multi_model" ∨
        (⟨1, none, "original_single_model"⟩ : PriceResponse).model_type =
          "original_single_model") ∧
      (⟨1, none, "original_single_model"⟩ : PriceResponse).model_type ≠ "fallback_model") ∧
    (healthz none none).model_type_in_use = "original_single_model" :=
  ⟨by rfl,
   C10_no_fallback_model_label.1 none (some (fun _ => (1 : ℚ))) (fun q => q) cottonShirtReq
     ⟨1, none, "original_single_model"⟩ (by rfl),
   C10_no_fallback_model_label.2.1 none none rfl⟩

end SmartRetail





